import Mathlib

/-!
Verification of the NewMood application (src/newapp.py) against its
natural-language specification.

Strings are modelled as `List Char`.  Python regular-expression searches are
modelled by explicit leftmost-match scanning functions, SQLite string
functions (`lower`, `replace`, `substr`, `instr`) by structurally recursive
list functions, and the three database tables by lists of records.  Outbound
HTTP calls are modelled by an oracle value describing the outcome of the one
call a branch can make: a response (with its `ok` flag and parsed body) or a
raised exception (timeout / network error).
-/

namespace NewMood

/-! ### String-literal constants from the source -/

def litYoutu : List Char := "youtu".toList
def litYoutube : List Char := "youtube".toList
def litYoutuBe : List Char := "youtu.be".toList
def litYtbeSlash : List Char := "youtu.be/".toList
def litShorts : List Char := "/shorts/".toList
def litWatchUrl : List Char := "https://www.youtube.com/watch?v=".toList
def litYtbeUrl : List Char := "https://youtu.be/".toList
def litShortsUrl : List Char := "https://youtube.com/shorts/".toList
def litMusicYt : List Char := "music.youtube.com".toList
def litYoutubeCom : List Char := "youtube.com".toList
def litSpotify : List Char := "open.spotify.com".toList
def litApple : List Char := "music.apple.com".toList
def litThumbPre : List Char := "https://img.youtube.com/vi/".toList
def litThumbSuf : List Char := "/hqdefault.jpg".toList
def lit100 : List Char := "100x100".toList
def lit600 : List Char := "600x600".toList
def msgMissingLink : List Char := "missing_link".toList
def msgUnsupported : List Char := "only_youtube_music_spotify_apple_music_supported".toList
def msgAppleId : List Char := "apple_music_id_not_found".toList
def msgAutofillFailed : List Char := "autofill_failed".toList
def msgMissingTitleArtist : List Char := "missing_title_artist_autofill_first".toList

/-- The middle-dot separator in Spotify oEmbed titles. -/
def middleDot : Char := '·'

/-! ### Basic string helpers -/

/-- ASCII whitespace stripped by Python `str.strip()` (for the ASCII inputs
    this application handles). -/
def isSpaceChar (c : Char) : Bool :=
  c == ' ' || c == '\t' || c == '\n' || c == '\r' || c == '\x0b' || c == '\x0c'

/-- Python `str.strip()`. -/
def pyStrip (s : List Char) : List Char :=
  ((s.dropWhile isSpaceChar).reverse.dropWhile isSpaceChar).reverse

/-- SQLite `lower()` (ASCII-only lowercasing). -/
def asciiLower (c : Char) : Char :=
  if 'A' ≤ c ∧ c ≤ 'Z' then Char.ofNat (c.toNat + 32) else c

/-- Python `needle in haystack` / SQLite `instr(haystack, needle) > 0`:
    substring containment. -/
def containsSub (pat : List Char) : List Char → Bool
  | [] => pat.isEmpty
  | c :: rest => pat.isPrefixOf (c :: rest) || containsSub pat rest

/-- One scanning pass of SQLite `replace` / Python `str.replace`: replace all
    non-overlapping occurrences of `pat` left to right, continuing after each
    replacement.  Fuel-structured recursion; every step consumes at least one
    character, so fuel `s.length` gives the exact untruncated behaviour. -/
def replaceAllFuel (pat rep : List Char) : Nat → List Char → List Char
  | _, [] => []
  | 0, s => s
  | fuel + 1, c :: rest =>
    if !pat.isEmpty && pat.isPrefixOf (c :: rest) then
      rep ++ replaceAllFuel pat rep fuel ((c :: rest).drop pat.length)
    else
      c :: replaceAllFuel pat rep fuel rest

def replaceAll (pat rep s : List Char) : List Char := replaceAllFuel pat rep s.length s

/-! ### Link-id extraction (`extract_yt_id`, `extract_apple_id`) -/

/-- The regex character class `[A-Za-z0-9_-]`. -/
def isYtIdChar (c : Char) : Bool :=
  decide ('A' ≤ c ∧ c ≤ 'Z') || decide ('a' ≤ c ∧ c ≤ 'z') ||
    decide ('0' ≤ c ∧ c ≤ '9') || c == '_' || c == '-'

/-- `re.search` semantics: try a position matcher on every suffix of the
    input, left to right; the first position where it matches wins. -/
def searchSuffixes (f : List Char → Option (List Char)) : List Char → Option (List Char)
  | [] => f []
  | c :: rest =>
    match f (c :: rest) with
    | some v => some v
    | none => searchSuffixes f rest

/-- Position matcher for `lit([A-Za-z0-9_-]{11})`: the literal `lit` followed
    by exactly 11 id characters (the capture group). -/
def matchYtAt (lit : List Char) (s : List Char) : Option (List Char) :=
  if lit.isPrefixOf s then
    let cand := (s.drop lit.length).take 11
    if cand.length == 11 && cand.all isYtIdChar then some cand else none
  else none

/-- Position matcher for `[?&]v=([A-Za-z0-9_-]{11})`. -/
def matchVAt : List Char → Option (List Char)
  | c :: 'v' :: '=' :: rest =>
    if c == '?' || c == '&' then
      let cand := rest.take 11
      if cand.length == 11 && cand.all isYtIdChar then some cand else none
    else none
  | _ => none

/-- `extract_yt_id` (src/newapp.py lines 24-35): try, in order,
    `youtu.be/<id>`, `[?&]v=<id>`, `/shorts/<id>`; first pattern that has a
    match anywhere in the url wins. -/
def extract_yt_id (url : List Char) : Option (List Char) :=
  match searchSuffixes (matchYtAt litYtbeSlash) url with
  | some v => some v
  | none =>
    match searchSuffixes matchVAt url with
    | some v => some v
    | none => searchSuffixes (matchYtAt litShorts) url

/-- Position matcher for `[?&]i=(\d+)`: a maximal nonempty run of digits. -/
def matchIAt : List Char → Option (List Char)
  | c :: 'i' :: '=' :: rest =>
    if c == '?' || c == '&' then
      let ds := rest.takeWhile Char.isDigit
      if ds.isEmpty then none else some ds
    else none
  | _ => none

/-- Position matcher for `/id(\d+)`. -/
def matchIdAt : List Char → Option (List Char)
  | '/' :: 'i' :: 'd' :: rest =>
    let ds := rest.takeWhile Char.isDigit
    if ds.isEmpty then none else some ds
  | _ => none

/-- `extract_apple_id` (src/newapp.py lines 37-44): try `[?&]i=(\d+)` first,
    then `/id(\d+)`. -/
def extract_apple_id (url : List Char) : Option (List Char) :=
  match searchSuffixes matchIAt url with
  | some v => some v
  | none => searchSuffixes matchIdAt url

/-! ### Thumbnail derivations -/

/-- `https://img.youtube.com/vi/<vid>/hqdefault.jpg`. -/
def ytThumbUrl (vid : List Char) : List Char := litThumbPre ++ vid ++ litThumbSuf

/-- The SQL `CASE ... END AS thumbnail` expression in the draw-selection
    query of `submit` (src/newapp.py lines 231-244): when the lowercased link
    contains `youtu`, strip the three exact url literals from the lowercased
    link by textual replacement and take the first 11 remaining characters. -/
def sqlThumb (link : List Char) : Option (List Char) :=
  let low := link.map asciiLower
  if containsSub litYoutu low then
    some (ytThumbUrl
      ((replaceAll litShortsUrl [] (replaceAll litYtbeUrl [] (replaceAll litWatchUrl [] low))).take 11))
  else none

/-- Spec-side derivation for the refinement claim C3, following the spec
    sentence: the thumbnail is obtained from the stored link by the same
    id-extraction logic as the resolver (`extract_yt_id`), and null when
    extraction fails. -/
def specDerivedThumb (link : List Char) : Option (List Char) :=
  (extract_yt_id link).map ytThumbUrl

/-! ### The autofill route (link-metadata resolver) -/

/-- Outcome of the single outbound HTTP request a branch can make:
    either a response (with `requests`' `r.ok` flag and the parsed JSON
    body) or a raised exception (timeout, connection error, bad JSON). -/
inductive HttpOutcome (α : Type) where
  | resp (ok : Bool) (body : α)
  | exn
deriving DecidableEq

/-- Parsed body of the YouTube oEmbed response: the `title` and
    `author_name` fields, each possibly absent. -/
structure YtBody where
  title : Option (List Char)
  author : Option (List Char)
deriving DecidableEq

/-- Parsed body of the Spotify oEmbed response. -/
structure SpBody where
  title : Option (List Char)
  author : Option (List Char)
  thumbnail_url : Option (List Char)
deriving DecidableEq

/-- One entry of the iTunes lookup `results` array. -/
structure ItItem where
  trackName : Option (List Char)
  collectionName : Option (List Char)
  artistName : Option (List Char)
  artworkUrl100 : Option (List Char)
deriving DecidableEq

/-- Parsed body of the iTunes lookup response. -/
structure ItBody where
  resultCount : Nat
  results : List ItItem
deriving DecidableEq

/-- The `meta` dictionary returned by `/autofill`. -/
structure Meta where
  title : List Char
  artist : List Char
  thumbnail : List Char
deriving DecidableEq

/-- Result of the `/autofill` route: a JSON success with `meta`, or an error
    response with its HTTP status code and error string. -/
inductive AutofillResult where
  | ok (meta : Meta)
  | err (code : Nat) (msg : List Char)
deriving DecidableEq

/-- Python truthiness choice `x or y` for an optional string `x`:
    `y` unless `x` is present and nonempty. -/
def orTruthy (x : Option (List Char)) (y : List Char) : List Char :=
  match x with
  | some s => if s.isEmpty then y else s
  | none => y

/-- Python `title.split("·", 1)`: the part before the first separator and
    everything after it (only used when the separator occurs). -/
def splitFirst (sep : Char) : List Char → List Char × List Char
  | [] => ([], [])
  | c :: rest =>
    if c == sep then ([], rest)
    else
      let p := splitFirst sep rest
      (c :: p.1, p.2)

/-- The five substring markers of the `allow` check in `/autofill`
    (src/newapp.py line 150). -/
def allowMarkers : List (List Char) :=
  [litMusicYt, litYoutuBe, litYoutubeCom, litSpotify, litApple]

def allowCheck (link : List Char) : Bool :=
  allowMarkers.any (fun m => containsSub m link)

inductive Source where
  | youtube
  | spotify
  | apple
deriving DecidableEq

/-- The `if / elif / elif` branch selection inside `/autofill`
    (src/newapp.py lines 158, 169, 186), in source order. -/
def classify (link : List Char) : Option Source :=
  if containsSub litYoutube link || containsSub litYoutuBe link then some Source.youtube
  else if containsSub litSpotify link then some Source.spotify
  else if containsSub litApple link then some Source.apple
  else none

/-- The YouTube / YouTube Music branch of `/autofill` (lines 158-166):
    derive the thumbnail from the extracted id first, then call oEmbed; a
    raised exception propagates to the route's `except` handler (500). -/
def ytBranch (link : List Char) (yt : HttpOutcome YtBody) : AutofillResult :=
  let thumb :=
    match extract_yt_id link with
    | some vid => ytThumbUrl vid
    | none => []
  match yt with
  | HttpOutcome.exn => AutofillResult.err 500 msgAutofillFailed
  | HttpOutcome.resp ok body =>
    if ok then AutofillResult.ok ⟨body.title.getD [], body.author.getD [], thumb⟩
    else AutofillResult.ok ⟨[], [], thumb⟩

/-- The Spotify branch of `/autofill` (lines 169-183). -/
def spBranch (sp : HttpOutcome SpBody) : AutofillResult :=
  match sp with
  | HttpOutcome.exn => AutofillResult.err 500 msgAutofillFailed
  | HttpOutcome.resp ok body =>
    if ok then
      let title := pyStrip (orTruthy body.title [])
      let thumb := orTruthy body.thumbnail_url []
      if containsSub [middleDot] title then
        let p := splitFirst middleDot title
        AutofillResult.ok ⟨pyStrip p.1, orTruthy body.author (pyStrip p.2), thumb⟩
      else
        AutofillResult.ok ⟨title, body.author.getD [], thumb⟩
    else AutofillResult.ok ⟨[], [], []⟩

/-- The Apple Music branch of `/autofill` (lines 186-199): the id must
    extract before the lookup call; `d["results"][0]` on an empty array
    raises, landing in the route's `except` handler (500). -/
def appleBranch (link : List Char) (it : HttpOutcome ItBody) : AutofillResult :=
  match extract_apple_id link with
  | none => AutofillResult.err 400 msgAppleId
  | some _ =>
    match it with
    | HttpOutcome.exn => AutofillResult.err 500 msgAutofillFailed
    | HttpOutcome.resp ok body =>
      if ok then
        if 0 < body.resultCount then
          match body.results with
          | [] => AutofillResult.err 500 msgAutofillFailed
          | item :: _ =>
            let art := item.artworkUrl100.getD []
            AutofillResult.ok
              ⟨orTruthy item.trackName (orTruthy item.collectionName []),
               item.artistName.getD [],
               if art.isEmpty then [] else replaceAll lit100 lit600 art⟩
        else AutofillResult.ok ⟨[], [], []⟩
      else AutofillResult.ok ⟨[], [], []⟩

/-- The `/autofill` route (src/newapp.py lines 143-203): strip the link,
    reject empty links and unsupported sources, then dispatch on the first
    matching source family. -/
def autofill (rawLink : List Char) (yt : HttpOutcome YtBody) (sp : HttpOutcome SpBody)
    (it : HttpOutcome ItBody) : AutofillResult :=
  let link := pyStrip rawLink
  if link.isEmpty then AutofillResult.err 400 msgMissingLink
  else if !allowCheck link then AutofillResult.err 400 msgUnsupported
  else
    match classify link with
    | some Source.youtube => ytBranch link yt
    | some Source.spotify => spBranch sp
    | some Source.apple => appleBranch link it
    | none => AutofillResult.ok ⟨[], [], []⟩

/-! ### Data model and the submit / upsert / admin operations -/

/-- A row of the `accounts` table. -/
structure Account where
  id : Nat
  google_sub : List Char
  email : List Char
  nickname : List Char
  created_at : List Char
deriving DecidableEq

/-- A row of the `recommendations` table. -/
structure Recommendation where
  rid : Nat
  account_id : Nat
  title : List Char
  artist : List Char
  reason : List Char
  link : List Char
  created_at : List Char
deriving DecidableEq

/-- A row of the `draws` table. -/
structure Draw where
  did : Nat
  account_id : Nat
  recommendation_id : Nat
  created_at : List Char
deriving DecidableEq

/-- The database state: the three tables plus the next AUTOINCREMENT ids. -/
structure DB where
  accounts : List Account
  recommendations : List Recommendation
  draws : List Draw
  nextRecId : Nat
  nextDrawId : Nat
deriving DecidableEq

/-- The row returned to the submitter: the selected recommendation joined
    with its author's nickname (LEFT JOIN, so possibly null) and the
    SQL-derived thumbnail. -/
structure DrawnRow where
  rec_id : Nat
  title : List Char
  artist : List Char
  reason : List Char
  link : List Char
  nickname : Option (List Char)
  thumbnail : Option (List Char)
deriving DecidableEq

/-- Result of the `/submit` route for a logged-in user: an error response,
    or the updated database together with the drawn row (null if none). -/
inductive SubmitOutcome where
  | err (code : Nat) (msg : List Char)
  | ok (db : DB) (drawn : Option DrawnRow)
deriving DecidableEq

/-- `ORDER BY RANDOM() LIMIT 1`: an arbitrary element of the result set,
    parameterised by the random draw `k`; none exactly when the set is
    empty. -/
def pickRandom (k : Nat) (l : List α) : Option α := l.get? (k % l.length)

/-- The rows eligible for the draw: every recommendation whose owning
    account differs from the submitter (`WHERE r.account_id != :aid`). -/
def eligibleRecs (recs : List Recommendation) (aid : Nat) : List Recommendation :=
  recs.filter (fun rec => rec.account_id ≠ aid)

/-- The drawn row built by the selection query for recommendation `rec`. -/
def drawnRowFor (accounts : List Account) (rec : Recommendation) : DrawnRow :=
  ⟨rec.rid, rec.title, rec.artist, rec.reason, rec.link,
   (accounts.find? (fun acc => acc.id == rec.account_id)).map Account.nickname,
   sqlThumb rec.link⟩

/-- The `/submit` route for a logged-in user `aid` (src/newapp.py lines
    206-258): validate, insert the new recommendation, select one random
    recommendation owned by a different account (the fresh row included),
    and if one was selected record the draw; all within one transaction. -/
def submit (db : DB) (aid : Nat) (t a r l now : List Char) (k : Nat) : SubmitOutcome :=
  let title := pyStrip t
  let artist := pyStrip a
  let reason := pyStrip r
  let link := pyStrip l
  if link.isEmpty then SubmitOutcome.err 400 msgMissingLink
  else if title.isEmpty || artist.isEmpty then SubmitOutcome.err 400 msgMissingTitleArtist
  else
    let newRec : Recommendation := ⟨db.nextRecId, aid, title, artist, reason, link, now⟩
    let recs := db.recommendations ++ [newRec]
    match pickRandom k (eligibleRecs recs aid) with
    | none =>
      SubmitOutcome.ok
        { db with recommendations := recs, nextRecId := db.nextRecId + 1 } none
    | some rec =>
      SubmitOutcome.ok
        { db with
          recommendations := recs
          nextRecId := db.nextRecId + 1
          draws := db.draws ++ [⟨db.nextDrawId, aid, rec.rid, now⟩]
          nextDrawId := db.nextDrawId + 1 }
        (some (drawnRowFor db.accounts rec))

/-- The account upsert of `/auth/google` (src/newapp.py lines 103-108):
    `INSERT ... ON CONFLICT(email) DO UPDATE SET google_sub =
    excluded.google_sub`.  Returns the new table and next id. -/
def upsert_account (accounts : List Account) (nextId : Nat)
    (sub email nickname now : List Char) : List Account × Nat :=
  if accounts.any (fun acc => acc.email == email) then
    (accounts.map (fun acc =>
      if acc.email == email then { acc with google_sub := sub } else acc), nextId)
  else
    (accounts ++ [⟨nextId, sub, email, nickname, now⟩], nextId + 1)

/-- The admin gate (src/newapp.py lines 295-304): authorise when the
    configured admin secret is truthy (nonempty) and the stripped
    query-string token equals it, or when the session email, lowercased, is
    in the admin allowlist; otherwise 403. -/
def require_admin (adminPass : List Char) (adminEmails : List (List Char))
    (rawToken : List Char) (sessionEmail : Option (List Char)) : Bool :=
  let token := pyStrip rawToken
  if !adminPass.isEmpty && token == adminPass then true
  else
    match sessionEmail with
    | some e => adminEmails.contains (e.map asciiLower)
    | none => false


/-! ### Supporting lemmas -/

theorem containsSub_iff (p s : List Char) : containsSub p s = true ↔ p <:+: s := by
  induction s with
  | nil => simp [containsSub, List.infix_nil, List.isEmpty_iff]
  | cons c rest ih =>
    rw [containsSub, Bool.or_eq_true, ih, List.infix_cons_iff]
    simp

theorem containsSub_mono {p q : List Char} (hpq : p <:+: q) {s : List Char}
    (h : containsSub q s = true) : containsSub p s = true :=
  (containsSub_iff p s).mpr (hpq.trans ((containsSub_iff q s).mp h))

theorem isPrefixOf_append_self (l t : List Char) : l.isPrefixOf (l ++ t) = true := by
  simp

theorem isPrefixOf_eq_false_of_lt {p s : List Char} (h : s.length < p.length) :
    p.isPrefixOf s = false := by
  cases hps : p.isPrefixOf s with
  | false => rfl
  | true =>
    have : p <+: s := by simpa using hps
    exact absurd this.length_le (by omega)

theorem replaceAllFuel_id {pat : List Char} (rep : List Char) (fuel : Nat) :
    ∀ s : List Char, s.length < pat.length → replaceAllFuel pat rep fuel s = s := by
  induction fuel with
  | zero => intro s _; cases s <;> rfl
  | succ n ih =>
    intro s hs
    cases s with
    | nil => rfl
    | cons c rest =>
      have hpre : pat.isPrefixOf (c :: rest) = false := isPrefixOf_eq_false_of_lt hs
      have hrest : rest.length < pat.length := by
        simp only [List.length_cons] at hs; omega
      simp [replaceAllFuel, hpre, ih rest hrest]

theorem replaceAll_id {pat : List Char} (rep : List Char) {s : List Char}
    (h : s.length < pat.length) : replaceAll pat rep s = s :=
  replaceAllFuel_id rep s.length s h

theorem replaceAll_strip {p0 : Char} {pr rest : List Char}
    (h : rest.length < (p0 :: pr).length) :
    replaceAll (p0 :: pr) [] ((p0 :: pr) ++ rest) = rest := by
  have hfuel : ((p0 :: pr) ++ rest).length = (pr.length + rest.length) + 1 := by
    simp [List.length_append]
  have hpre : (p0 :: pr).isPrefixOf ((p0 :: pr) ++ rest) = true :=
    isPrefixOf_append_self _ _
  rw [replaceAll, hfuel]
  rw [show (p0 :: pr) ++ rest = p0 :: (pr ++ rest) from rfl] at hpre ⊢
  rw [replaceAllFuel, if_pos (by simp [hpre])]
  rw [show p0 :: (pr ++ rest) = (p0 :: pr) ++ rest from rfl, List.drop_left]
  exact (List.nil_append _).trans (replaceAllFuel_id _ _ rest h)

theorem searchSuffixes_cons_some (f : List Char → Option (List Char)) (c : Char)
    (rest v : List Char) (h : f (c :: rest) = some v) :
    searchSuffixes f (c :: rest) = some v := by
  simp [searchSuffixes, h]

theorem matchYtAt_append (lit seg : List Char) (h1 : (seg.take 11).length = 11)
    (h2 : (seg.take 11).all isYtIdChar = true) :
    matchYtAt lit (lit ++ seg) = some (seg.take 11) := by
  rw [matchYtAt, if_pos (by simp), List.drop_left]
  simp [h1, h2]

/-- Evaluation of `extract_yt_id` on a link of the shape
    `https://youtu.be/<segment>`: the first pattern matches at position 8 of
    the url and captures the first 11 characters of the segment. -/
theorem extract_yt_id_ytbeUrl (seg : List Char) (h1 : (seg.take 11).length = 11)
    (h2 : (seg.take 11).all isYtIdChar = true) :
    extract_yt_id (litYtbeUrl ++ seg) = some (seg.take 11) := by
  have hstep : searchSuffixes (matchYtAt litYtbeSlash) (litYtbeUrl ++ seg)
      = searchSuffixes (matchYtAt litYtbeSlash) (litYtbeSlash ++ seg) := rfl
  have hs : searchSuffixes (matchYtAt litYtbeSlash) (litYtbeUrl ++ seg) = some (seg.take 11) :=
    hstep.trans (searchSuffixes_cons_some _ _ _ _ (matchYtAt_append litYtbeSlash seg h1 h2))
  rw [extract_yt_id, hs]

theorem map_id_of_mem {f : Char → Char} : ∀ {l : List Char}, (∀ c ∈ l, f c = c) → l.map f = l := by
  intro l h
  induction l with
  | nil => rfl
  | cons c rest ih =>
    simp only [List.map_cons]
    rw [h c (by simp), ih (fun x hx => h x (by simp [hx]))]

/-- Characters of the id class that ASCII-lowercasing leaves unchanged:
    lowercase letters, digits, underscore and hyphen. -/
def isLowerYtIdChar (c : Char) : Bool := isYtIdChar c && (asciiLower c == c)

/-! ### Claims -/

/-- C9: the YouTube id extractor is not anchored at an 11-character
    boundary: on a link `https://youtu.be/<segment>` whose id segment is
    longer than 11 characters drawn from `[A-Za-z0-9_-]`, `extract_yt_id`
    returns the first 11 characters of the segment rather than rejecting
    the link. -/
theorem extract_yt_id_truncates_long_segment (seg : List Char)
    (hlen : 11 < seg.length) (hall : seg.all isYtIdChar = true) :
    extract_yt_id (litYtbeUrl ++ seg) = some (seg.take 11) := by
  have h1 : (seg.take 11).length = 11 := by
    rw [List.length_take]
    omega
  have h2 : (seg.take 11).all isYtIdChar = true := by
    rw [List.all_eq_true] at hall ⊢
    exact fun x hx => hall x (List.take_subset _ _ hx)
  exact extract_yt_id_ytbeUrl seg h1 h2

/-- Witness for C9 at a 12-character segment. -/
theorem extract_yt_id_truncates_long_segment_witness :
    extract_yt_id (litYtbeUrl ++ ("abcdefghijkL".toList)) = some ("abcdefghijk".toList) :=
  (extract_yt_id_truncates_long_segment ("abcdefghijkL".toList) (by decide) (by decide)).trans
    (by decide)

/-- C3 counterexample: on the stored link `https://youtu.be/ABCDEFGHIJK`
    the submit-time SQL derivation lowercases the link before taking the id,
    so it yields the thumbnail for `abcdefghijk`, while `extract_yt_id`
    returns `ABCDEFGHIJK`; the two derivations are not equal. -/
theorem sqlThumb_specDerivedThumb_divergence :
    sqlThumb ("https://youtu.be/ABCDEFGHIJK".toList)
        = some (ytThumbUrl ("abcdefghijk".toList)) ∧
    specDerivedThumb ("https://youtu.be/ABCDEFGHIJK".toList)
        = some (ytThumbUrl ("ABCDEFGHIJK".toList)) ∧
    sqlThumb ("https://youtu.be/ABCDEFGHIJK".toList)
        ≠ specDerivedThumb ("https://youtu.be/ABCDEFGHIJK".toList) :=
  ⟨by decide, by decide, by decide⟩

/-- C3 amended: the submit-time SQL derivation does not run the resolver's
    id extraction; it lowercases the stored link, textually deletes the
    three exact url literals, and keeps the first 11 remaining characters.
    It agrees with the `extract_yt_id`-based derivation on links that are
    exactly `https://youtu.be/<id>` with an 11-character id free of
    uppercase letters: there both produce
    `https://img.youtube.com/vi/<id>/hqdefault.jpg`. -/
theorem sqlThumb_agrees_on_plain_ytbe_links (vid : List Char)
    (hlen : vid.length = 11) (hall : vid.all isLowerYtIdChar = true) :
    sqlThumb (litYtbeUrl ++ vid) = some (ytThumbUrl vid) ∧
    specDerivedThumb (litYtbeUrl ++ vid) = some (ytThumbUrl vid) := by
  have htake : vid.take 11 = vid := by
    rw [← hlen]
    exact List.take_length vid
  have hid : ∀ c ∈ vid, isYtIdChar c = true ∧ asciiLower c = c := by
    rw [List.all_eq_true] at hall
    intro c hc
    have hcc := hall c hc
    rw [isLowerYtIdChar, Bool.and_eq_true] at hcc
    exact ⟨hcc.1, by simpa using hcc.2⟩
  have hlit : litYtbeUrl.map asciiLower = litYtbeUrl := by decide
  have hvid : vid.map asciiLower = vid := map_id_of_mem (fun c hc => (hid c hc).2)
  have hlow : (litYtbeUrl ++ vid).map asciiLower = litYtbeUrl ++ vid := by
    rw [List.map_append, hlit, hvid]
  have hx : extract_yt_id (litYtbeUrl ++ vid) = some vid := by
    have hres := extract_yt_id_ytbeUrl vid (by rw [htake, hlen])
      (by rw [htake]; exact List.all_eq_true.mpr (fun c hc => (hid c hc).1))
    rw [htake] at hres
    exact hres
  constructor
  · have hc : containsSub litYoutu (litYtbeUrl ++ vid) = true := rfl
    have e1 : replaceAll litWatchUrl [] (litYtbeUrl ++ vid) = litYtbeUrl ++ vid :=
      replaceAll_id _ (by rw [List.length_append, hlen]; decide)
    have e3 : replaceAll litShortsUrl [] vid = vid :=
      replaceAll_id _ (by rw [hlen]; decide)
    have e2 : replaceAll litYtbeUrl [] (litYtbeUrl ++ vid) = vid :=
      replaceAll_strip (by rw [hlen]; decide)
    simp only [sqlThumb]
    rw [hlow, hc, e1, e2, e3, htake]
    rfl
  · rw [specDerivedThumb, hx]
    rfl

/-- Witness for the amended C3 at a concrete lowercase id. -/
theorem sqlThumb_agrees_on_plain_ytbe_links_witness :
    sqlThumb (litYtbeUrl ++ ("abc-def_hij".toList))
        = some (ytThumbUrl ("abc-def_hij".toList)) ∧
    specDerivedThumb (litYtbeUrl ++ ("abc-def_hij".toList))
        = some (ytThumbUrl ("abc-def_hij".toList)) :=
  sqlThumb_agrees_on_plain_ytbe_links ("abc-def_hij".toList) (by decide) (by decide)

theorem autofill_dispatch (rawLink : List Char) (yt : HttpOutcome YtBody)
    (sp : HttpOutcome SpBody) (it : HttpOutcome ItBody)
    (h1 : pyStrip rawLink ≠ []) (h2 : allowCheck (pyStrip rawLink) = true) :
    autofill rawLink yt sp it =
      match classify (pyStrip rawLink) with
      | some Source.youtube => ytBranch (pyStrip rawLink) yt
      | some Source.spotify => spBranch sp
      | some Source.apple => appleBranch (pyStrip rawLink) it
      | none => AutofillResult.ok ⟨[], [], []⟩ := by
  have he : (pyStrip rawLink).isEmpty = false := List.isEmpty_eq_false.mpr h1
  simp only [autofill, he, h2, Bool.not_true, Bool.false_eq_true, if_false]

theorem classify_yt {l : List Char}
    (h : (containsSub litYoutube l || containsSub litYoutuBe l) = true) :
    classify l = some Source.youtube := by
  simp only [classify, h, if_true]

theorem classify_sp {l : List Char}
    (hy : (containsSub litYoutube l || containsSub litYoutuBe l) = false)
    (hs : containsSub litSpotify l = true) :
    classify l = some Source.spotify := by
  simp only [classify, hy, hs, Bool.false_eq_true, if_false, if_true]

theorem classify_ap {l : List Char}
    (hy : (containsSub litYoutube l || containsSub litYoutuBe l) = false)
    (hs : containsSub litSpotify l = false)
    (ha : containsSub litApple l = true) :
    classify l = some Source.apple := by
  simp only [classify, hy, hs, ha, Bool.false_eq_true, if_false, if_true]

theorem ytBranch_ne_unsupported (l : List Char) (yt : HttpOutcome YtBody) :
    ytBranch l yt ≠ AutofillResult.err 400 msgUnsupported := by
  cases yt with
  | exn => simp only [ytBranch]; decide
  | resp ok body =>
    cases ok <;> simp only [ytBranch, if_true, if_false, Bool.false_eq_true] <;>
      exact fun h => AutofillResult.noConfusion h

theorem spBranch_ne_unsupported (sp : HttpOutcome SpBody) :
    spBranch sp ≠ AutofillResult.err 400 msgUnsupported := by
  cases sp with
  | exn => simp only [spBranch]; decide
  | resp ok body =>
    cases ok with
    | false =>
      simp only [spBranch, Bool.false_eq_true, if_false]
      exact fun h => AutofillResult.noConfusion h
    | true =>
      simp only [spBranch, if_true]
      split <;> exact fun h => AutofillResult.noConfusion h

theorem appleBranch_ne_unsupported (l : List Char) (it : HttpOutcome ItBody) :
    appleBranch l it ≠ AutofillResult.err 400 msgUnsupported := by
  rw [appleBranch.eq_def]
  cases extract_apple_id l with
  | none =>
    intro h
    injection h with h1 h2
    exact absurd h2 (by decide)
  | some aid =>
    cases it with
    | exn =>
      exact (by decide :
        AutofillResult.err 500 msgAutofillFailed ≠ AutofillResult.err 400 msgUnsupported)
    | resp ok body =>
      cases ok with
      | false => exact fun h => AutofillResult.noConfusion h
      | true =>
        simp only [if_true]
        split
        · cases body.results with
          | nil =>
            exact (by decide :
              AutofillResult.err 500 msgAutofillFailed ≠ AutofillResult.err 400 msgUnsupported)
          | cons item rest => exact fun h => AutofillResult.noConfusion h
        · exact fun h => AutofillResult.noConfusion h

/-- C4 counterexample: on `https://youtu.be/abcdefghijk` the id is found,
    yet when the oEmbed metadata call raises (timeout / network error) the
    route's `except` handler returns a 500 `autofill_failed` error instead
    of a success carrying the derived thumbnail — so the resolver does not
    return the thumbnail regardless of whether the metadata call succeeds. -/
theorem autofill_exn_drops_thumbnail :
    extract_yt_id (pyStrip ("https://youtu.be/abcdefghijk".toList)) = some ("abcdefghijk".toList) ∧
    autofill ("https://youtu.be/abcdefghijk".toList) HttpOutcome.exn HttpOutcome.exn HttpOutcome.exn
      = AutofillResult.err 500 msgAutofillFailed :=
  ⟨by decide, by decide⟩

/-- C4 amended: the 11-character id is extracted by trying the patterns in
    order with the first match winning, and whenever an id is found the
    resolver returns the thumbnail `https://img.youtube.com/vi/<id>/hqdefault.jpg`
    for every oEmbed call that completes with an HTTP response, successful or
    not; but when the call raises (timeout / network error) the whole
    resolution fails with a 500 `autofill_failed` error despite the id. -/
theorem autofill_yt_thumbnail_behavior :
    (∀ url v, searchSuffixes (matchYtAt litYtbeSlash) url = some v →
        extract_yt_id url = some v) ∧
    (∀ url v, searchSuffixes (matchYtAt litYtbeSlash) url = none →
        searchSuffixes matchVAt url = some v → extract_yt_id url = some v) ∧
    (∀ rawLink ok body sp it vid, pyStrip rawLink ≠ [] →
        allowCheck (pyStrip rawLink) = true →
        (containsSub litYoutube (pyStrip rawLink) || containsSub litYoutuBe (pyStrip rawLink)) = true →
        extract_yt_id (pyStrip rawLink) = some vid →
        autofill rawLink (HttpOutcome.resp ok body) sp it =
          AutofillResult.ok ⟨if ok then body.title.getD [] else [],
                             if ok then body.author.getD [] else [], ytThumbUrl vid⟩) ∧
    (∀ rawLink sp it, pyStrip rawLink ≠ [] →
        allowCheck (pyStrip rawLink) = true →
        (containsSub litYoutube (pyStrip rawLink) || containsSub litYoutuBe (pyStrip rawLink)) = true →
        autofill rawLink HttpOutcome.exn sp it = AutofillResult.err 500 msgAutofillFailed) := by
  refine ⟨?_, ?_, ?_, ?_⟩
  · intro url v h
    rw [extract_yt_id, h]
  · intro url v h1 h2
    rw [extract_yt_id, h1, h2]
  · intro rawLink ok body sp it vid h1 h2 h3 h4
    rw [autofill_dispatch _ _ _ _ h1 h2, classify_yt h3]
    simp only [ytBranch, h4]
    cases ok <;> simp
  · intro rawLink sp it h1 h2 h3
    rw [autofill_dispatch _ _ _ _ h1 h2, classify_yt h3]
    simp only [ytBranch]

/-- Witness for the amended C4: a failed (non-ok) HTTP response still
    yields a success with the derived thumbnail, and a raised call yields
    the 500 error. -/
theorem autofill_yt_thumbnail_behavior_witness :
    autofill ("https://youtu.be/abcdefghijk".toList)
        (HttpOutcome.resp false ⟨some ("T".toList), none⟩) HttpOutcome.exn HttpOutcome.exn
      = AutofillResult.ok ⟨[], [], ytThumbUrl ("abcdefghijk".toList)⟩ ∧
    autofill ("https://youtu.be/abcdefghijk".toList) HttpOutcome.exn
        HttpOutcome.exn HttpOutcome.exn
      = AutofillResult.err 500 msgAutofillFailed :=
  ⟨(autofill_yt_thumbnail_behavior.2.2.1 ("https://youtu.be/abcdefghijk".toList) false
      ⟨some ("T".toList), none⟩ HttpOutcome.exn HttpOutcome.exn ("abcdefghijk".toList)
      (by decide) (by decide) (by decide) (by decide)).trans (by decide),
   autofill_yt_thumbnail_behavior.2.2.2 ("https://youtu.be/abcdefghijk".toList)
      HttpOutcome.exn HttpOutcome.exn (by decide) (by decide) (by decide)⟩

/-- C5: Apple id extraction tries `[?&]i=<digits>` before `/id<digits>` (so
    a link containing `?i=12345` extracts `12345` even when an `/id<digits>`
    segment is present), and when neither pattern matches on an Apple Music
    link the resolution fails with the `apple_music_id_not_found` error
    before any lookup call. -/
theorem apple_id_priority_and_missing_id_error :
    (∀ url d, searchSuffixes matchIAt url = some d → extract_apple_id url = some d) ∧
    (∀ url, searchSuffixes matchIAt url = none →
        extract_apple_id url = searchSuffixes matchIdAt url) ∧
    (∀ rawLink yt sp it, pyStrip rawLink ≠ [] →
        allowCheck (pyStrip rawLink) = true →
        (containsSub litYoutube (pyStrip rawLink) || containsSub litYoutuBe (pyStrip rawLink)) = false →
        containsSub litSpotify (pyStrip rawLink) = false →
        containsSub litApple (pyStrip rawLink) = true →
        extract_apple_id (pyStrip rawLink) = none →
        autofill rawLink yt sp it = AutofillResult.err 400 msgAppleId) := by
  refine ⟨?_, ?_, ?_⟩
  · intro url d h
    rw [extract_apple_id, h]
  · intro url h
    rw [extract_apple_id, h]
  · intro rawLink yt sp it h1 h2 h3 h4 h5 h6
    rw [autofill_dispatch _ _ _ _ h1 h2, classify_ap h3 h4 h5]
    rw [appleBranch.eq_def, h6]

/-- Witness for C5: `?i=12345` wins over the `/id111` segment, and an Apple
    link with neither pattern errors with `apple_music_id_not_found`. -/
theorem apple_id_priority_and_missing_id_error_witness :
    extract_apple_id ("https://music.apple.com/us/album/x/id111?i=12345".toList)
      = some ("12345".toList) ∧
    autofill ("https://music.apple.com/us/album/x".toList) HttpOutcome.exn
        HttpOutcome.exn HttpOutcome.exn
      = AutofillResult.err 400 msgAppleId :=
  ⟨apple_id_priority_and_missing_id_error.1
      ("https://music.apple.com/us/album/x/id111?i=12345".toList) ("12345".toList) (by decide),
   apple_id_priority_and_missing_id_error.2.2 ("https://music.apple.com/us/album/x".toList)
      HttpOutcome.exn HttpOutcome.exn HttpOutcome.exn
      (by decide) (by decide) (by decide) (by decide) (by decide) (by decide)⟩

/-- C6: for every nonempty link, the resolver rejects it with the
    unsupported-source error exactly when it contains none of the four
    family markers `youtube.com`, `youtu.be`, `open.spotify.com`,
    `music.apple.com` (the code's fifth marker `music.youtube.com` is
    subsumed by `youtube.com`). -/
theorem autofill_unsupported_iff_no_marker (rawLink : List Char) (yt : HttpOutcome YtBody)
    (sp : HttpOutcome SpBody) (it : HttpOutcome ItBody) (h : pyStrip rawLink ≠ []) :
    autofill rawLink yt sp it = AutofillResult.err 400 msgUnsupported ↔
      (containsSub litYoutubeCom (pyStrip rawLink) || containsSub litYoutuBe (pyStrip rawLink) ||
       containsSub litSpotify (pyStrip rawLink) || containsSub litApple (pyStrip rawLink)) = false := by
  have hsub : litYoutubeCom <:+: litMusicYt := ⟨("music.".toList), [], by decide⟩
  have hiff : allowCheck (pyStrip rawLink) = true ↔
      (containsSub litYoutubeCom (pyStrip rawLink) || containsSub litYoutuBe (pyStrip rawLink) ||
       containsSub litSpotify (pyStrip rawLink) || containsSub litApple (pyStrip rawLink)) = true := by
    simp only [allowCheck, allowMarkers, List.any_cons, List.any_nil, Bool.or_false,
      Bool.or_eq_true]
    constructor
    · rintro (hm | hm | hm | hm | hm)
      · exact Or.inl (Or.inl (Or.inl (containsSub_mono hsub hm)))
      · exact Or.inl (Or.inl (Or.inr hm))
      · exact Or.inl (Or.inl (Or.inl hm))
      · exact Or.inl (Or.inr hm)
      · exact Or.inr hm
    · rintro (((hm | hm) | hm) | hm)
      · exact Or.inr (Or.inr (Or.inl hm))
      · exact Or.inr (Or.inl hm)
      · exact Or.inr (Or.inr (Or.inr (Or.inl hm)))
      · exact Or.inr (Or.inr (Or.inr (Or.inr hm)))
  by_cases hA : allowCheck (pyStrip rawLink) = true
  · constructor
    · intro hc
      rw [autofill_dispatch _ _ _ _ h hA] at hc
      exfalso
      cases hcl : classify (pyStrip rawLink) with
      | none => rw [hcl] at hc; exact AutofillResult.noConfusion hc
      | some s =>
        cases s with
        | youtube => rw [hcl] at hc; exact ytBranch_ne_unsupported _ _ hc
        | spotify => rw [hcl] at hc; exact spBranch_ne_unsupported _ hc
        | apple => rw [hcl] at hc; exact appleBranch_ne_unsupported _ _ hc
    · intro hm
      rw [hiff, hm] at hA
      exact absurd hA (by decide)
  · have hA2 : allowCheck (pyStrip rawLink) = false := by
      cases hv : allowCheck (pyStrip rawLink) with
      | false => rfl
      | true => exact absurd hv hA
    have he : (pyStrip rawLink).isEmpty = false := List.isEmpty_eq_false.mpr h
    constructor
    · intro _
      cases hv : (containsSub litYoutubeCom (pyStrip rawLink) ||
          containsSub litYoutuBe (pyStrip rawLink) || containsSub litSpotify (pyStrip rawLink) ||
          containsSub litApple (pyStrip rawLink)) with
      | false => rfl
      | true => exact absurd (hiff.mpr hv) hA
    · intro _
      simp only [autofill, he, hA2, Bool.not_false, if_true, Bool.false_eq_true, if_false]

/-- Witness for C6: a nonempty link outside the three families is rejected
    with the unsupported-source error. -/
theorem autofill_unsupported_iff_no_marker_witness :
    autofill ("https://example.com/a".toList) HttpOutcome.exn HttpOutcome.exn HttpOutcome.exn
      = AutofillResult.err 400 msgUnsupported :=
  (autofill_unsupported_iff_no_marker ("https://example.com/a".toList)
      HttpOutcome.exn HttpOutcome.exn HttpOutcome.exn (by decide)).mpr (by decide)

/-- C10: branch selection in the resolver is ordered: a link matching the
    YouTube markers is classified YouTube regardless of the other markers; a
    link free of YouTube markers but containing the Spotify marker is
    classified Spotify; only then Apple Music.  Moreover for a
    YouTube-classified link the resolver's result does not depend on the
    Spotify or Apple oracles at all — the link is processed exclusively by
    the YouTube branch. -/
theorem classify_branch_order :
    (∀ l, (containsSub litYoutube l || containsSub litYoutuBe l) = true →
        classify l = some Source.youtube) ∧
    (∀ l, (containsSub litYoutube l || containsSub litYoutuBe l) = false →
        containsSub litSpotify l = true → classify l = some Source.spotify) ∧
    (∀ l, (containsSub litYoutube l || containsSub litYoutuBe l) = false →
        containsSub litSpotify l = false → containsSub litApple l = true →
        classify l = some Source.apple) ∧
    (∀ rawLink yt sp sp2 it it2,
        (containsSub litYoutube (pyStrip rawLink) || containsSub litYoutuBe (pyStrip rawLink)) = true →
        autofill rawLink yt sp it = autofill rawLink yt sp2 it2) := by
  refine ⟨fun l h => classify_yt h, fun l h1 h2 => classify_sp h1 h2,
    fun l h1 h2 h3 => classify_ap h1 h2 h3, ?_⟩
  intro rawLink yt sp sp2 it it2 hyt
  by_cases h1 : pyStrip rawLink = []
  · have he : (pyStrip rawLink).isEmpty = true := by rw [h1]; rfl
    simp only [autofill, he, if_true]
  · by_cases h2 : allowCheck (pyStrip rawLink) = true
    · rw [autofill_dispatch _ _ _ _ h1 h2, autofill_dispatch _ _ _ _ h1 h2, classify_yt hyt]
    · have he : (pyStrip rawLink).isEmpty = false := List.isEmpty_eq_false.mpr h1
      have hA2 : allowCheck (pyStrip rawLink) = false := by
        cases hv : allowCheck (pyStrip rawLink) with
        | false => rfl
        | true => exact absurd hv h2
      simp only [autofill, he, hA2, Bool.false_eq_true, if_false, Bool.not_false, if_true]

/-- Witness for C10: a link containing both a YouTube and the Spotify
    marker is classified YouTube, and its resolution ignores the Spotify
    and Apple oracles. -/
theorem classify_branch_order_witness :
    classify ("https://youtu.be/x?src=open.spotify.com".toList) = some Source.youtube ∧
    autofill ("https://youtu.be/x?src=open.spotify.com".toList) HttpOutcome.exn
        HttpOutcome.exn HttpOutcome.exn
      = autofill ("https://youtu.be/x?src=open.spotify.com".toList) HttpOutcome.exn
          (HttpOutcome.resp true ⟨some ("S".toList), none, none⟩)
          (HttpOutcome.resp true ⟨1, []⟩) :=
  ⟨classify_branch_order.1 ("https://youtu.be/x?src=open.spotify.com".toList) (by decide),
   classify_branch_order.2.2.2 ("https://youtu.be/x?src=open.spotify.com".toList)
      HttpOutcome.exn HttpOutcome.exn (HttpOutcome.resp true ⟨some ("S".toList), none, none⟩)
      HttpOutcome.exn (HttpOutcome.resp true ⟨1, []⟩) (by decide)⟩

/-- C1: every Draw row created by the submit operation links the submitter
    to a recommendation whose owning account differs from the submitter:
    the selection query excludes the submitter's own rows, so the new draw
    carries the submitter's account id and references a stored
    recommendation with a different owner. -/
theorem submit_draw_references_other_account
    (db : DB) (aid : Nat) (t a r l now : List Char) (k : Nat) (db2 : DB)
    (drawn : Option DrawnRow) (hok : submit db aid t a r l now k = SubmitOutcome.ok db2 drawn)
    (d : Draw) (hmem : d ∈ db2.draws) (hnew : d ∉ db.draws) :
    d.account_id = aid ∧
    ∃ rec, rec ∈ db2.recommendations ∧ rec.rid = d.recommendation_id ∧ rec.account_id ≠ aid := by
  simp only [submit] at hok
  by_cases h1 : (pyStrip l).isEmpty = true
  · rw [if_pos h1] at hok
    exact SubmitOutcome.noConfusion hok
  · rw [if_neg h1] at hok
    by_cases h2 : ((pyStrip t).isEmpty || (pyStrip a).isEmpty) = true
    · rw [if_pos h2] at hok
      exact SubmitOutcome.noConfusion hok
    · rw [if_neg h2] at hok
      cases hpick : pickRandom k (eligibleRecs (db.recommendations ++
          [⟨db.nextRecId, aid, pyStrip t, pyStrip a, pyStrip r, pyStrip l, now⟩]) aid) with
      | none =>
        rw [hpick] at hok
        injection hok with hdb hdr
        rw [← hdb] at hmem
        exact absurd hmem hnew
      | some rec =>
        rw [hpick] at hok
        injection hok with hdb hdr
        have hdraws : db2.draws = db.draws ++ [⟨db.nextDrawId, aid, rec.rid, now⟩] := by
          rw [← hdb]
        rw [hdraws] at hmem
        rcases List.mem_append.mp hmem with hold | hone
        · exact absurd hold hnew
        · rw [List.mem_singleton] at hone
          subst hone
          rw [pickRandom] at hpick
          have helig := List.get?_mem hpick
          rw [eligibleRecs] at helig
          have hparts := List.mem_filter.mp helig
          refine ⟨rfl, rec, ?_, rfl, of_decide_eq_true hparts.2⟩
          rw [← hdb]
          exact hparts.1

def dbC1 : DB :=
  ⟨[⟨1, [], ("a@x".toList), ("A".toList), []⟩, ⟨2, [], ("b@x".toList), ("B".toList), []⟩],
   [⟨1, 1, ("T".toList), ("Ar".toList), [], ("https://youtu.be/abcdefghijk".toList), []⟩],
   [], 2, 1⟩

/-- Witness for C1: account 2 submits while a recommendation of account 1
    exists; the created draw belongs to account 2 and references account
    1's recommendation. -/
theorem submit_draw_references_other_account_witness :
    Draw.account_id ⟨1, 2, 1, []⟩ = 2 ∧
    ∃ rec, rec ∈ (DB.mk dbC1.accounts
        (dbC1.recommendations ++
          [⟨2, 2, ("T2".toList), ("A2".toList), [], ("https://open.spotify.com/track/z".toList), []⟩])
        [⟨1, 2, 1, []⟩] 3 2).recommendations ∧
      rec.rid = Draw.recommendation_id ⟨1, 2, 1, []⟩ ∧ rec.account_id ≠ 2 :=
  submit_draw_references_other_account dbC1 2 ("T2".toList) ("A2".toList) []
    ("https://open.spotify.com/track/z".toList) [] 0
    (DB.mk dbC1.accounts
      (dbC1.recommendations ++
        [⟨2, 2, ("T2".toList), ("A2".toList), [], ("https://open.spotify.com/track/z".toList), []⟩])
      [⟨1, 2, 1, []⟩] 3 2)
    (some ⟨1, ("T".toList), ("Ar".toList), [], ("https://youtu.be/abcdefghijk".toList),
      some ("A".toList), some (ytThumbUrl ("abcdefghijk".toList))⟩)
    (by decide) ⟨1, 2, 1, []⟩ (by decide) (by decide)

/-- C2: when no recommendation owned by a different account exists, a valid
    submission still succeeds: the new Recommendation row is inserted, no
    Draw row is created, and the returned drawn value is null rather than
    an error. -/
theorem submit_no_eligible_returns_null
    (db : DB) (aid : Nat) (t a r l now : List Char) (k : Nat)
    (hown : ∀ rec ∈ db.recommendations, rec.account_id = aid)
    (hl : pyStrip l ≠ []) (ht : pyStrip t ≠ []) (ha : pyStrip a ≠ []) :
    submit db aid t a r l now k =
      SubmitOutcome.ok
        { db with
          recommendations := db.recommendations ++
            [⟨db.nextRecId, aid, pyStrip t, pyStrip a, pyStrip r, pyStrip l, now⟩]
          nextRecId := db.nextRecId + 1 } none := by
  have hfil : eligibleRecs (db.recommendations ++
      [⟨db.nextRecId, aid, pyStrip t, pyStrip a, pyStrip r, pyStrip l, now⟩]) aid = [] := by
    rw [eligibleRecs, List.filter_eq_nil_iff]
    intro rec hrec
    rcases List.mem_append.mp hrec with hold | hone
    · simp [hown rec hold]
    · rw [List.mem_singleton] at hone
      subst hone
      simp
  have hpn : pickRandom k ([] : List Recommendation) = none := rfl
  simp only [submit, List.isEmpty_eq_false.mpr hl, List.isEmpty_eq_false.mpr ht,
    List.isEmpty_eq_false.mpr ha, Bool.or_self, Bool.false_eq_true, if_false, hfil, hpn]

def dbC2 : DB :=
  ⟨[⟨1, [], ("a@x".toList), ("A".toList), []⟩],
   [⟨1, 1, ("T".toList), ("Ar".toList), [], ("https://youtu.be/abcdefghijk".toList), []⟩],
   [], 2, 1⟩

/-- Witness for C2: account 1, owner of the only stored recommendation,
    submits again; the submission succeeds with a null draw. -/
theorem submit_no_eligible_returns_null_witness :
    submit dbC2 1 ("T2".toList) ("A2".toList) [] ("https://youtu.be/abcdefghijX".toList) [] 7 =
      SubmitOutcome.ok
        (DB.mk dbC2.accounts
          (dbC2.recommendations ++
            [⟨2, 1, ("T2".toList), ("A2".toList), [], ("https://youtu.be/abcdefghijX".toList), []⟩])
          [] 3 1) none :=
  (submit_no_eligible_returns_null dbC2 1 ("T2".toList) ("A2".toList) []
      ("https://youtu.be/abcdefghijX".toList) [] 7
      (by intro rec hrec; simp only [dbC2, List.mem_singleton] at hrec; subst hrec; rfl)
      (by decide) (by decide) (by decide)).trans (by decide)

/-- C7: when an account with the given email already exists, the upsert of
    the sign-in flow rewrites the table by updating only that row's
    `google_sub`; the row's id, email, nickname and creation timestamp are
    untouched, and rows with other emails are unchanged — in particular the
    nickname is never overwritten by a re-login. -/
theorem upsert_updates_only_google_sub
    (accounts : List Account) (nextId : Nat) (sub email nickname now : List Char)
    (acc : Account) (hmem : acc ∈ accounts) (hemail : acc.email = email) :
    upsert_account accounts nextId sub email nickname now
      = (accounts.map (fun b => if b.email == email then { b with google_sub := sub } else b),
         nextId) ∧
    (∀ b : Account,
      (if b.email == email then { b with google_sub := sub } else b).nickname = b.nickname ∧
      (if b.email == email then { b with google_sub := sub } else b).id = b.id ∧
      (if b.email == email then { b with google_sub := sub } else b).email = b.email ∧
      (if b.email == email then { b with google_sub := sub } else b).created_at = b.created_at) ∧
    (∀ b : Account, b.email ≠ email →
      (if b.email == email then { b with google_sub := sub } else b) = b) := by
  refine ⟨?_, ?_, ?_⟩
  · rw [upsert_account, if_pos]
    exact List.any_eq_true.mpr ⟨acc, hmem, by rw [hemail]; exact beq_self_eq_true email⟩
  · intro b
    refine ⟨?_, ?_, ?_, ?_⟩ <;> split <;> rfl
  · intro b hb
    rw [if_neg]
    simp [hb]

/-- Witness for C7 at a two-row table: re-login of `a@x` updates its
    subject id only; the other row and all non-subject fields survive. -/
theorem upsert_updates_only_google_sub_witness :
    upsert_account
        [⟨1, ("s1".toList), ("a@x".toList), ("Nick".toList), ("t1".toList)⟩,
         ⟨2, ("s2".toList), ("b@x".toList), ("Mick".toList), ("t2".toList)⟩]
        3 ("s9".toList) ("a@x".toList) ("NewNick".toList) ("t9".toList)
      = ([⟨1, ("s1".toList), ("a@x".toList), ("Nick".toList), ("t1".toList)⟩,
          ⟨2, ("s2".toList), ("b@x".toList), ("Mick".toList), ("t2".toList)⟩].map
          (fun b => if b.email == ("a@x".toList) then { b with google_sub := ("s9".toList) }
                    else b), 3) :=
  (upsert_updates_only_google_sub
    [⟨1, ("s1".toList), ("a@x".toList), ("Nick".toList), ("t1".toList)⟩,
     ⟨2, ("s2".toList), ("b@x".toList), ("Mick".toList), ("t2".toList)⟩]
    3 ("s9".toList) ("a@x".toList) ("NewNick".toList) ("t9".toList)
    ⟨1, ("s1".toList), ("a@x".toList), ("Nick".toList), ("t1".toList)⟩
    (by decide) (by decide)).1

/-- C8: with an empty configured admin secret the token path of the admin
    gate never authorises: the decision reduces to allowlist membership of
    the session email alone, for every supplied token — in particular an
    empty supplied token is not treated as matching the empty secret, and
    an anonymous or non-allowlisted request is rejected (403). -/
theorem require_admin_empty_secret (adminEmails : List (List Char))
    (rawToken : List Char) (sessionEmail : Option (List Char)) :
    require_admin [] adminEmails rawToken sessionEmail =
      match sessionEmail with
      | some e => adminEmails.contains (e.map asciiLower)
      | none => false := rfl

end NewMood
